import Mathlib

/-!
Shallow embedding of the core of the solar energy model
(`solar_energy_model/model.py` and the sizing-triple defaulting step of
`solar_energy_model/validator.py`).

Numbers are embedded as rationals (`ℚ`); Python `None` becomes `Option`;
Python exceptions (`TypeError`, `ZeroDivisionError`, `UnboundLocalError`)
become `Except.error` values carrying the exception name.
-/

/-- One row of the per-use-case scada catalogue (one sub-region record).
Fields kept: the compound key `(Region, Threshold)`, the allocatable area
`Area_m2`, and the sort key `Median_Radiation`. -/
structure ScadaRow where
  Region : String
  Threshold : ℚ
  Area_m2 : ℚ
  Median_Radiation : ℚ
deriving DecidableEq, Repr

/-- Total `Area_m2` of a list of records. -/
def sumAreas (rows : List ScadaRow) : ℚ :=
  (rows.map ScadaRow.Area_m2).sum

@[simp] theorem sumAreas_nil : sumAreas [] = 0 := rfl

@[simp] theorem sumAreas_cons (r : ScadaRow) (l : List ScadaRow) :
    sumAreas (r :: l) = r.Area_m2 + sumAreas l := by
  simp [sumAreas]

/-- Index of the first non-`None` entry of the parameter list, `-1` when all
entries are `None` (Python `next((i for i, v in enumerate(ps) if v is not
None), -1)` in `x03GetAvailableArea`). -/
def x03index : List (Option ℚ) → Int
  | [] => -1
  | some _ :: _ => 0
  | none :: rest =>
    let i := x03index rest
    if i = -1 then -1 else i + 1

/-- Embedding of `x03GetAvailableArea` (model.py lines 507-536): resolve the sizing triple
from the first non-null of `[area, power, capex]`.  Python float division by
zero raises `ZeroDivisionError`; arithmetic on `None` raises `TypeError`;
both are embedded as `Except.error`. -/
def x03GetAvailableArea (parameters : List (Option ℚ)) (cost landUse : ℚ) :
    Except String (ℚ × ℚ × ℚ) :=
  let index := x03index parameters
  if index = 2 then
    match parameters.getD 2 none with
    | some capex =>
      if cost * 1000000 = 0 then .error "ZeroDivisionError"
      else
        let power := capex / (cost * 1000000)
        if landUse = 0 then .error "ZeroDivisionError"
        else .ok (power * 1000000 / landUse, power, capex)
    | none => .error "TypeError"
  else if index = 1 then
    match parameters.getD 1 none with
    | some power =>
      if landUse = 0 then .error "ZeroDivisionError"
      else .ok (power * 1000000 / landUse, power, power * cost * 1000000)
    | none => .error "TypeError"
  else
    match parameters.getD 0 none with
    | some area =>
      let power := area * landUse / 1000000
      .ok (area, power, power * cost * 1000000)
    | none => .error "TypeError"

/-- The all-null sizing-triple defaulting performed by
`validateProcessPayload` (validator.py lines 163-169 and 203-208): when
area, power and capex are all null, the area is replaced by `0`. -/
def validateSizingTriple (a p k : Option ℚ) : List (Option ℚ) :=
  if a = none ∧ p = none ∧ k = none then [some 0, none, none] else [a, p, k]

/-- The scan loop of `x04GetRegions` (model.py lines 557-567), with the
Region name already captured from the first row.  `iterrows` hands the loop
a copy of each row, so the truncating assignment `row['Area_m2'] = area -
currentSum` mutates only the appended copy, never the catalogue. -/
def x04GetRegionsGo (area minGHI : ℚ) (name : String) :
    List ScadaRow → ℚ → List ScadaRow
  | [], _ => []
  | r :: rest, currentSum =>
    if r.Area_m2 > 0 ∧ r.Region ≠ name ∧ minGHI ≤ r.Threshold then
      if area < currentSum + r.Area_m2 then
        [{ r with Area_m2 := area - currentSum }]
      else
        r :: x04GetRegionsGo area minGHI name rest (currentSum + r.Area_m2)
    else
      x04GetRegionsGo area minGHI name rest currentSum

/-- Embedding of `x04GetRegions` (model.py lines 540-569): greedy selection of records
from the catalogue, in order, until the area budget is consumed.  The
NUTS2 name is captured from the first row (identifier minus its last
character) before that same row is tested for selection. -/
def x04GetRegions (scada : List ScadaRow) (area minGHI : ℚ) :
    List ScadaRow × Option String :=
  match scada with
  | [] => ([], none)
  | r :: rest =>
    let name := r.Region.dropRight 1
    (x04GetRegionsGo area minGHI name (r :: rest) 0, some name)

/-- The two-record catalogue of the spec's concrete selection scenario. -/
def exCatalogue : List ScadaRow :=
  [⟨"E1", 2200, 500, 2200⟩, ⟨"E1", 2000, 300, 2000⟩]

theorem dropRight_E1 : ("E1" : String).dropRight 1 = "E" := by decide

theorem E1_ne_E : (("E1" : String) = "E") = False := by
  simp only [eq_iff_iff, iff_false]
  decide

/-- Embedding of `x02ThermalModel` (model.py lines 486-503): hourly thermal energy from
an hourly irradiation series, in MWh. -/
def x02ThermalModel (radiation : List ℚ) (effTH effOp aperture : ℚ) : List ℚ :=
  radiation.map (fun x => x * aperture * effTH * effOp / 1000000)

/-- Embedding of `x05GetThermalProduction` (model.py lines 573-627), restricted to the
data it returns: one thermal production series per selected record.  The
hourly DNI series obtained from the external PVGIS service for a record is
abstracted as the function `radiation`. -/
def x05GetThermalProduction (rows : List ScadaRow) (radiation : ScadaRow → List ℚ)
    (effTH effOp aperture : ℚ) : List (List ℚ) :=
  rows.map (fun r => x02ThermalModel (radiation r) effTH effOp aperture)

/-- Pointwise sum of two hourly series, aligned at the start (the embedding
of pandas column-wise summation over a shared index). -/
def addSeries : List ℚ → List ℚ → List ℚ
  | [], ys => ys
  | x :: xs, [] => x :: xs
  | x :: xs, y :: ys => (x + y) :: addSeries xs ys

/-- Embedding of `pd.DataFrame(prod).sum(axis=0)`: column-wise sum of a list of series;
empty exactly when every contributing series is empty. -/
def sumSeries (l : List (List ℚ)) : List ℚ :=
  l.foldl addSeries []

/-- Region identifiers of the selected records in order of first
appearance (the `res` list of `x07GetDistribution`, model.py lines 704-707). -/
def dedupRegions (rows : List ScadaRow) : List String :=
  rows.foldl (fun acc r => if r.Region ∈ acc then acc else acc ++ [r.Region]) []

/-- Embedding of `x07GetDistribution` (model.py lines 692-729): per-region summed
production series, summed installed power and summed area, for the selected
records.  `power` and `prodOf` stand for the `power_installed(kW)` and
production entries that `x05GetThermalProduction` wrote into each record. -/
def x07GetDistribution (rows : List ScadaRow) (power : ScadaRow → ℚ)
    (prodOf : ScadaRow → List ℚ) :
    List (String × List ℚ) × List (String × ℚ) × List (String × ℚ) :=
  let res := dedupRegions rows
  (res.map (fun i => (i, sumSeries ((rows.filter (fun r => r.Region == i)).map prodOf))),
   res.map (fun i => (i, ((rows.filter (fun r => r.Region == i)).map power).sum)),
   res.map (fun i => (i, ((rows.filter (fun r => r.Region == i)).map ScadaRow.Area_m2).sum)))

/-- One step of the area reconciliation in `s05CalculateThermalProduction`
(model.py lines 243-248): subtract one thermal record's consumed area from
every photovoltaic-catalogue row carrying the same `(Region, Threshold)`
compound key. -/
def applyThermalRow (pv : List ScadaRow) (region : ScadaRow) : List ScadaRow :=
  pv.map (fun s =>
    if s.Region = region.Region ∧ s.Threshold = region.Threshold then
      { s with Area_m2 := s.Area_m2 - region.Area_m2 }
    else s)

/-- The full reconciliation loop `for region in rowsTH: ...` of
`s05CalculateThermalProduction`. -/
def reconcileAreas (pv : List ScadaRow) (rowsTH : List ScadaRow) : List ScadaRow :=
  rowsTH.foldl applyThermalRow pv

/-- Total consumed area of the thermal records whose `(Region, Threshold)`
key equals that of `s`. -/
def keyConsumed (rowsTH : List ScadaRow) (s : ScadaRow) : ℚ :=
  sumAreas (rowsTH.filter
    (fun r => decide (s.Region = r.Region ∧ s.Threshold = r.Threshold)))

/-- Embedding of `s05CalculateThermalProduction` (model.py lines 186-252) after the two
external queries are abstracted by `radiation`.  The Python locals
`nuts2TH` and `potDistTH` are assigned only inside `if not dfTH.empty:`
yet always appear in the return statement; the embedding models them as
`Option` locals, and the return on the unassigned path as the
`UnboundLocalError` Python raises there. -/
def s05CalculateThermalProduction (scadaTH scadaPV : List ScadaRow)
    (areaTH minGhiTH landUseTH effTH effOp aperture : ℚ)
    (radiation : ScadaRow → List ℚ) :
    Except String
      (List (String × List ℚ) × List ScadaRow × List (String × ℚ) ×
        List ℚ × List ScadaRow) :=
  let rowsTH := (x04GetRegions scadaTH areaTH minGhiTH).1
  let prodTH := x05GetThermalProduction rowsTH radiation effTH effOp (areaTH * aperture)
  let dfTH := sumSeries prodTH
  let branch :=
    if dfTH ≠ [] then
      let dist := x07GetDistribution rowsTH
        (fun r => r.Area_m2 * landUseTH / 1000000)
        (fun r => x02ThermalModel (radiation r) effTH effOp (areaTH * aperture))
      some (dist.1, dist.2.1, reconcileAreas scadaPV rowsTH)
    else none
  match branch with
  | some (nuts2TH, potDistTH, scadaPV2) =>
    .ok (nuts2TH, rowsTH, potDistTH, dfTH, scadaPV2)
  | none => .error "UnboundLocalError"

/-- The peak-power ceiling workaround of `x06GetPVProduction` (model.py
lines 663-668): returns the peak power (kW) passed to the PVGIS query and
the factor later multiplied onto the returned series.  The `factor` test
runs on the already reassigned `potMW`, exactly as in the source. -/
def x06PeakScale (area_m2 landUse : ℚ) : ℚ × ℚ :=
  let potMW := area_m2 * landUse / 1000000
  let potMW2 := if 100000000 < potMW * 1000 then potMW / 1000 else potMW
  let factor : ℚ := if 100000000 < potMW2 * 1000 then 1000 else 1
  (potMW2 * 1000, factor)

/-- The peak power in kW before any scaling (`Area_m2 × landUse / 1e3`). -/
def peakPowerKW (area_m2 landUse : ℚ) : ℚ :=
  area_m2 * landUse / 1000

/-- Test whether the first character list is an initial segment of the
second. -/
def strStarts : List Char → List Char → Bool
  | [], _ => true
  | _ :: _, [] => false
  | a :: as, b :: bs => a = b && strStarts as bs

/-- Python's substring test `needle in hay`. -/
def strContains (hay needle : String) : Bool :=
  hay.data.tails.any (fun t => strStarts needle.data t)

/-- One iteration of the `for dKey, dValue in dictData.items()` loop of
`x08CalculateOpex`: keys containing `"thermal"` feed the thermal total, and
(`elif`) keys containing `"pv"` but not `"thermal"` feed the PV total. -/
def x08Step (acc : ℚ × ℚ) (kv : String × ℚ) : ℚ × ℚ :=
  if strContains kv.1 "thermal" then (acc.1 + kv.2, acc.2)
  else if strContains kv.1 "pv" then (acc.1, acc.2 + kv.2)
  else acc

/-- Embedding of `x08CalculateOpex` (model.py lines 733-754): the capacity dictionary is
embedded as an association list in iteration order. -/
def x08CalculateOpex (dictData : List (String × ℚ)) (opexTH opexPV : ℚ) : ℚ × ℚ :=
  let t := dictData.foldl x08Step (0, 0)
  (t.1 * opexTH, t.2 * opexPV)

/-- Modelled from the spec (§4.7 and claim C9's reading of it): the sum of
all capacities whose key contains `"thermal"` times the thermal unit cost,
and the sum of all capacities whose key contains `"pv"` times the PV unit
cost — with no exclusivity between the two tags. -/
def x08SpecOpex (dictData : List (String × ℚ)) (opexTH opexPV : ℚ) : ℚ × ℚ :=
  (((dictData.filter (fun kv => strContains kv.1 "thermal")).map Prod.snd).sum * opexTH,
   ((dictData.filter (fun kv => strContains kv.1 "pv")).map Prod.snd).sum * opexPV)

/-- Thermal-tagged capacity total as `x08CalculateOpex` accumulates it. -/
def thermalTagged (d : List (String × ℚ)) : ℚ :=
  ((d.filter (fun kv => strContains kv.1 "thermal")).map Prod.snd).sum

/-- PV-tagged capacity total as `x08CalculateOpex` accumulates it: the
`elif` makes `"thermal"`-tagged keys invisible to the PV total. -/
def pvTagged (d : List (String × ℚ)) : ℚ :=
  ((d.filter (fun kv => !strContains kv.1 "thermal" && strContains kv.1 "pv")).map
    Prod.snd).sum

theorem x04Go_sum_le (area minGHI : ℚ) (name : String) :
    ∀ (rows : List ScadaRow) (c : ℚ), c ≤ area →
      c + sumAreas (x04GetRegionsGo area minGHI name rows c) ≤ area := by
  intro rows
  induction rows with
  | nil =>
    intro c hc
    simpa [x04GetRegionsGo] using hc
  | cons r rest ih =>
    intro c hc
    simp only [x04GetRegionsGo]
    split_ifs with h1 h2
    · simp only [sumAreas_cons, sumAreas_nil]
      linarith
    · have h3 : c + r.Area_m2 ≤ area := not_lt.mp h2
      have h4 := ih (c + r.Area_m2) h3
      simp only [sumAreas_cons]
      linarith
    · exact ih c hc

theorem x04Go_threshold (area minGHI : ℚ) (name : String) :
    ∀ (rows : List ScadaRow) (c : ℚ) (r : ScadaRow),
      r ∈ x04GetRegionsGo area minGHI name rows c → minGHI ≤ r.Threshold := by
  intro rows
  induction rows with
  | nil =>
    intro c r hr
    simp [x04GetRegionsGo] at hr
  | cons s rest ih =>
    intro c r hr
    simp only [x04GetRegionsGo] at hr
    split_ifs at hr with h1 h2
    · rw [List.mem_singleton] at hr
      subst hr
      exact h1.2.2
    · rcases List.mem_cons.mp hr with h | h
      · subst h; exact h1.2.2
      · exact ih _ r h
    · exact ih c r hr

theorem x04Go_copies (area minGHI : ℚ) (name : String) :
    ∀ (rows : List ScadaRow) (c : ℚ) (r : ScadaRow),
      r ∈ x04GetRegionsGo area minGHI name rows c →
      ∃ s, s ∈ rows ∧ r.Region = s.Region ∧ r.Threshold = s.Threshold ∧
        r.Median_Radiation = s.Median_Radiation ∧ r.Area_m2 ≤ s.Area_m2 := by
  intro rows
  induction rows with
  | nil =>
    intro c r hr
    simp [x04GetRegionsGo] at hr
  | cons s rest ih =>
    intro c r hr
    simp only [x04GetRegionsGo] at hr
    split_ifs at hr with h1 h2
    · rw [List.mem_singleton] at hr
      subst hr
      refine ⟨s, List.mem_cons_self s rest, rfl, rfl, rfl, ?_⟩
      show area - c ≤ s.Area_m2
      linarith
    · rcases List.mem_cons.mp hr with h | h
      · subst h
        exact ⟨r, List.mem_cons_self r rest, rfl, rfl, rfl, le_refl _⟩
      · obtain ⟨t, ht, h⟩ := ih _ r h
        exact ⟨t, List.mem_cons_of_mem s ht, h⟩
    · obtain ⟨t, ht, h⟩ := ih c r hr
      exact ⟨t, List.mem_cons_of_mem s ht, h⟩

theorem x04Go_dropLast (area minGHI : ℚ) (name : String) :
    ∀ (rows : List ScadaRow) (c : ℚ) (r : ScadaRow),
      r ∈ (x04GetRegionsGo area minGHI name rows c).dropLast → r ∈ rows := by
  intro rows
  induction rows with
  | nil =>
    intro c r hr
    simp [x04GetRegionsGo] at hr
  | cons s rest ih =>
    intro c r hr
    simp only [x04GetRegionsGo] at hr
    split_ifs at hr with h1 h2
    · simp at hr
    · rcases htail : x04GetRegionsGo area minGHI name rest (c + s.Area_m2) with
        _ | ⟨t, ts⟩
      · rw [htail] at hr
        simp at hr
      · rw [htail, List.dropLast_cons₂] at hr
        rcases List.mem_cons.mp hr with h | h
        · rw [h]; exact List.mem_cons_self _ _
        · refine List.mem_cons_of_mem s (ih (c + s.Area_m2) r ?_)
          rw [htail]
          exact h
    · exact List.mem_cons_of_mem s (ih c r hr)

theorem x04Go_zero (minGHI : ℚ) (name : String) :
    ∀ rows : List ScadaRow,
      (x04GetRegionsGo 0 minGHI name rows 0).length ≤ 1 ∧
      sumAreas (x04GetRegionsGo 0 minGHI name rows 0) = 0 ∧
      ∀ r ∈ x04GetRegionsGo 0 minGHI name rows 0, r.Area_m2 = 0 := by
  intro rows
  induction rows with
  | nil => simp [x04GetRegionsGo]
  | cons s rest ih =>
    simp only [x04GetRegionsGo]
    split_ifs with h1 h2
    · refine ⟨by simp, by simp, ?_⟩
      intro r hr
      rw [List.mem_singleton] at hr
      subst hr
      simp
    · exact absurd (by linarith [h1.1] : (0 : ℚ) < 0 + s.Area_m2) h2
    · exact ih

/-- Claim C3 fails as stated: with a negative target area and no qualifying
record, the selection is empty, and its cumulative area `0` exceeds the
target `-1`.  (The single catalogue record is excluded by the resource
floor `2500`.) -/
theorem c3_counterexample :
    ¬ (sumAreas (x04GetRegions [⟨"E1", 2200, 500, 2200⟩] (-1) 2500).1 ≤ -1) := by
  norm_num [x04GetRegions, x04GetRegionsGo, dropRight_E1, E1_ne_E]

/-- C3 (amended: target area restricted to non-negative): the cumulative
`Area_m2` of the records selected by `x04GetRegions` never exceeds a
non-negative target area, and on the spec's concrete catalogue with target
`600` and floor `2000` the selection is `[500, 100]` (the second record
truncated), consuming exactly `600`. -/
theorem c3_x04_cumulative_bound :
    (∀ (scada : List ScadaRow) (area minGHI : ℚ), 0 ≤ area →
      sumAreas (x04GetRegions scada area minGHI).1 ≤ area) ∧
    (x04GetRegions exCatalogue 600 2000).1.map ScadaRow.Area_m2 = [500, 100] ∧
    sumAreas (x04GetRegions exCatalogue 600 2000).1 = 600 := by
  refine ⟨?_, ?_, ?_⟩
  · intro scada area minGHI ha
    match scada with
    | [] => simpa [x04GetRegions] using ha
    | r :: rest =>
      have h := x04Go_sum_le area minGHI (r.Region.dropRight 1) (r :: rest) 0 ha
      simpa [x04GetRegions] using h
  · norm_num [x04GetRegions, exCatalogue, x04GetRegionsGo, dropRight_E1, E1_ne_E]
  · norm_num [x04GetRegions, exCatalogue, x04GetRegionsGo, dropRight_E1, E1_ne_E]

theorem c3_x04_cumulative_bound_witness :
    sumAreas (x04GetRegions exCatalogue 600 2000).1 ≤ 600 :=
  c3_x04_cumulative_bound.1 exCatalogue 600 2000 (by norm_num)

/-- C8: every record selected by `x04GetRegions` has resource quality
(`Threshold`) at or above the floor `minGHI`; records below the floor are
never selected. -/
theorem c8_x04_threshold_floor (scada : List ScadaRow) (area minGHI : ℚ)
    (r : ScadaRow) (hr : r ∈ (x04GetRegions scada area minGHI).1) :
    minGHI ≤ r.Threshold := by
  match scada with
  | [] => simp [x04GetRegions] at hr
  | s :: rest =>
    exact x04Go_threshold area minGHI (s.Region.dropRight 1) (s :: rest) 0 r hr

theorem c8_x04_threshold_floor_witness :
    (⟨"E1", 2200, 500, 2200⟩ : ScadaRow) ∈ (x04GetRegions exCatalogue 600 2000).1 ∧
    (2000 : ℚ) ≤ (⟨"E1", 2200, 500, 2200⟩ : ScadaRow).Threshold := by
  have hmem : (⟨"E1", 2200, 500, 2200⟩ : ScadaRow) ∈ (x04GetRegions exCatalogue 600 2000).1 := by
    norm_num [x04GetRegions, exCatalogue, x04GetRegionsGo, dropRight_E1, E1_ne_E]
  exact ⟨hmem, c8_x04_threshold_floor exCatalogue 600 2000 _ hmem⟩

/-- Claim C6 fails as stated: on the non-empty `exCatalogue` with target
area `0`, `x04GetRegions` does not select zero records — the first
qualifying row is appended with its area truncated to `0`. -/
theorem c6_counterexample :
    (x04GetRegions exCatalogue 0 2000).1 = [⟨"E1", 2200, 0, 2200⟩] ∧
    (x04GetRegions exCatalogue 0 2000).1.length ≠ 0 := by
  constructor
  · norm_num [x04GetRegions, exCatalogue, x04GetRegionsGo, dropRight_E1, E1_ne_E]
  · norm_num [x04GetRegions, exCatalogue, x04GetRegionsGo, dropRight_E1, E1_ne_E]

/-- C6 (amended): on a non-empty catalogue with target area `0`, the Region
name is still captured from the first row, and the selection consumes zero
area — at most one record is selected, and any selected record has its
`Area_m2` truncated to `0`. -/
theorem c6_x04_zero_area (first : ScadaRow) (rest : List ScadaRow) (minGHI : ℚ) :
    (x04GetRegions (first :: rest) 0 minGHI).2 = some (first.Region.dropRight 1) ∧
    sumAreas (x04GetRegions (first :: rest) 0 minGHI).1 = 0 ∧
    (x04GetRegions (first :: rest) 0 minGHI).1.length ≤ 1 ∧
    ∀ r ∈ (x04GetRegions (first :: rest) 0 minGHI).1, r.Area_m2 = 0 := by
  have h := x04Go_zero minGHI (first.Region.dropRight 1) (first :: rest)
  exact ⟨rfl, h.2.1, h.1, h.2.2⟩

theorem c6_x04_zero_area_witness :
    (x04GetRegions exCatalogue 0 2000).2 = some "E" ∧
    sumAreas (x04GetRegions exCatalogue 0 2000).1 = 0 ∧
    (⟨"E1", 2200, 0, 2200⟩ : ScadaRow).Area_m2 = 0 := by
  have hmem : (⟨"E1", 2200, 0, 2200⟩ : ScadaRow) ∈ (x04GetRegions exCatalogue 0 2000).1 := by
    norm_num [x04GetRegions, exCatalogue, x04GetRegionsGo, dropRight_E1, E1_ne_E]
  have h := c6_x04_zero_area ⟨"E1", 2200, 500, 2200⟩ [⟨"E1", 2000, 300, 2000⟩] 2000
  refine ⟨?_, h.2.1, h.2.2.2 _ hmem⟩
  norm_num [x04GetRegions, exCatalogue, dropRight_E1]

/-- C10: `x04GetRegions` hands back copies — every record selected from the
catalogue agrees with a catalogue row on `Region`, `Threshold` and
`Median_Radiation` and carries at most that row's area (equal except for
the possible final truncation), and every selected record other than the
last one is a catalogue row unchanged.  The catalogue itself is passed by
value and never written: `iterrows` yields copies, so the truncating
assignment never reaches the DataFrame. -/
theorem c10_x04_returns_copies (scada : List ScadaRow) (area minGHI : ℚ) :
    (∀ r ∈ ((x04GetRegions scada area minGHI).1).dropLast, r ∈ scada) ∧
    (∀ r ∈ (x04GetRegions scada area minGHI).1,
      ∃ s, s ∈ scada ∧ r.Region = s.Region ∧ r.Threshold = s.Threshold ∧
        r.Median_Radiation = s.Median_Radiation ∧ r.Area_m2 ≤ s.Area_m2) := by
  match scada with
  | [] => simp [x04GetRegions]
  | s :: rest =>
    constructor
    · intro r hr
      exact x04Go_dropLast area minGHI (s.Region.dropRight 1) (s :: rest) 0 r hr
    · intro r hr
      exact x04Go_copies area minGHI (s.Region.dropRight 1) (s :: rest) 0 r hr

theorem c10_x04_returns_copies_witness :
    ∃ s, s ∈ exCatalogue ∧
      (⟨"E1", 2000, 100, 2000⟩ : ScadaRow).Region = s.Region ∧
      (⟨"E1", 2000, 100, 2000⟩ : ScadaRow).Threshold = s.Threshold ∧
      (⟨"E1", 2000, 100, 2000⟩ : ScadaRow).Median_Radiation = s.Median_Radiation ∧
      (⟨"E1", 2000, 100, 2000⟩ : ScadaRow).Area_m2 ≤ s.Area_m2 := by
  have hmem : (⟨"E1", 2000, 100, 2000⟩ : ScadaRow) ∈ (x04GetRegions exCatalogue 600 2000).1 := by
    norm_num [x04GetRegions, exCatalogue, x04GetRegionsGo, dropRight_E1, E1_ne_E]
  exact (c10_x04_returns_copies exCatalogue 600 2000).2 _ hmem

/-- C2: on a triple with at least one non-null entry (and meaningful
conversion constants), `x03GetAvailableArea` returns without error a triple
`(area, power, capex)` satisfying `power = area × landUse / 1e6` and
`capex = power × cost × 1e6` (equivalently, in the capex branch,
`power = capex / (cost × 1e6)` and `area = power × 1e6 / landUse`), and the
component corresponding to the first non-null field in the order
`[area, power, capex]` equals the given input value. -/
theorem c2_x03_first_non_null_consistent (a? p? k? : Option ℚ) (cost landUse : ℚ)
    (hsome : a?.isSome ∨ p?.isSome ∨ k?.isSome) (hc : cost ≠ 0) (hl : landUse ≠ 0) :
    ∃ a p k, x03GetAvailableArea [a?, p?, k?] cost landUse = .ok (a, p, k) ∧
      p = a * landUse / 1000000 ∧ k = p * cost * 1000000 ∧
      (∀ a0, a? = some a0 → a = a0) ∧
      (a? = none → ∀ p0, p? = some p0 → p = p0) ∧
      (a? = none → p? = none → ∀ k0, k? = some k0 → k = k0) := by
  match a?, p?, k? with
  | some a0, _, _ =>
    refine ⟨a0, a0 * landUse / 1000000, a0 * landUse / 1000000 * cost * 1000000,
      ?_, rfl, rfl, ?_, ?_, ?_⟩
    · norm_num [x03GetAvailableArea, x03index]
    · intro x hx; cases hx; rfl
    · intro h; cases h
    · intro h; cases h
  | none, some p0, _ =>
    refine ⟨p0 * 1000000 / landUse, p0, p0 * cost * 1000000, ?_, ?_, rfl, ?_, ?_, ?_⟩
    · norm_num [x03GetAvailableArea, x03index, hl]
    · field_simp
    · intro x hx; cases hx
    · intro _ x hx; cases hx; rfl
    · intro _ h; cases h
  | none, none, some k0 =>
    refine ⟨k0 / (cost * 1000000) * 1000000 / landUse, k0 / (cost * 1000000), k0,
      ?_, ?_, ?_, ?_, ?_, ?_⟩
    · have hc6 : cost * 1000000 ≠ 0 := by
        exact mul_ne_zero hc (by norm_num)
      norm_num [x03GetAvailableArea, x03index, hl, hc6]
    · field_simp
      ring
    · field_simp
      ring
    · intro x hx; cases hx
    · intro _ x hx; cases hx
    · intro _ _ x hx; cases hx; rfl
  | none, none, none =>
    rcases hsome with h | h | h <;> simp at h

theorem c2_x03_first_non_null_consistent_witness :
    ∃ a p k, x03GetAvailableArea [some 100, none, none] 2 50 = .ok (a, p, k) ∧
      p = a * 50 / 1000000 ∧ k = p * 2 * 1000000 ∧
      (∀ a0, (some 100 : Option ℚ) = some a0 → a = a0) ∧
      ((some 100 : Option ℚ) = none → ∀ p0, (none : Option ℚ) = some p0 → p = p0) ∧
      ((some 100 : Option ℚ) = none → (none : Option ℚ) = none →
        ∀ k0, (none : Option ℚ) = some k0 → k = k0) :=
  c2_x03_first_non_null_consistent (some 100) none none 2 50 (Or.inl rfl)
    (by norm_num) (by norm_num)

/-- Claim C7 fails as stated: `x03GetAvailableArea` applied directly to the
all-null triple evaluates `None * landUse`, which raises a `TypeError`
rather than returning `(0, 0, 0)`. -/
theorem c7_counterexample :
    x03GetAvailableArea [none, none, none] 1 50 = .error "TypeError" := by
  norm_num [x03GetAvailableArea, x03index]

/-- C7 (amended): the all-null triple is defaulted upstream by
`validateProcessPayload`, which replaces the null area by `0`; on that
defaulted triple `x03GetAvailableArea` returns `area = 0`, `power = 0`,
`capex = 0` with no error.  Applied directly to the all-null triple it
instead raises a `TypeError`. -/
theorem c7_x03_allnull_defaulted (cost landUse : ℚ) :
    x03GetAvailableArea (validateSizingTriple none none none) cost landUse =
      .ok (0, 0, 0) := by
  norm_num [validateSizingTriple, x03GetAvailableArea, x03index]

theorem keyConsumed_nil (s : ScadaRow) : keyConsumed [] s = 0 := rfl

theorem keyConsumed_cons (r : ScadaRow) (rest : List ScadaRow) (s : ScadaRow) :
    keyConsumed (r :: rest) s =
      (if s.Region = r.Region ∧ s.Threshold = r.Threshold then r.Area_m2 else 0) +
        keyConsumed rest s := by
  by_cases h : s.Region = r.Region ∧ s.Threshold = r.Threshold
  · simp [keyConsumed, h, List.filter_cons]
  · simp [keyConsumed, h, List.filter_cons]

/-- C5: the reconciliation loop rewrites the PV catalogue row-for-row — no
row is inserted or deleted, each row keeps its `Region`, `Threshold` and
`Median_Radiation`, and its area becomes exactly the old area minus the
total consumed area of the thermal records sharing its `(Region,
Threshold)` compound key, with no clamping at zero. -/
theorem c5_reconcile_subtracts_by_key :
    ∀ (rowsTH pv : List ScadaRow),
      reconcileAreas pv rowsTH =
        pv.map (fun s => { s with Area_m2 := s.Area_m2 - keyConsumed rowsTH s }) := by
  intro rowsTH
  induction rowsTH with
  | nil =>
    intro pv
    have h : ∀ s ∈ pv, ({ s with Area_m2 := s.Area_m2 - keyConsumed [] s }) = s := by
      intro s _
      simp [keyConsumed_nil]
    rw [List.map_congr_left h]
    show reconcileAreas pv [] = pv.map id
    rw [List.map_id]
    rfl
  | cons r rest ih =>
    intro pv
    show reconcileAreas (applyThermalRow pv r) rest = _
    rw [ih (applyThermalRow pv r)]
    simp only [applyThermalRow, List.map_map]
    apply List.map_congr_left
    intro s _
    by_cases hk : s.Region = r.Region ∧ s.Threshold = r.Threshold
    · simp only [Function.comp_apply, if_pos hk, keyConsumed_cons]
      show ({ s with Area_m2 := s.Area_m2 - r.Area_m2 - keyConsumed rest s }) =
        ({ s with Area_m2 := s.Area_m2 - (r.Area_m2 + keyConsumed rest s) })
      exact congrArg (fun x => ({ s with Area_m2 := x } : ScadaRow)) (by ring)
    · simp only [Function.comp_apply, if_neg hk, keyConsumed_cons, zero_add]

theorem x08_foldl (d : List (String × ℚ)) :
    ∀ acc : ℚ × ℚ, d.foldl x08Step acc = (acc.1 + thermalTagged d, acc.2 + pvTagged d) := by
  induction d with
  | nil =>
    intro acc
    simp [thermalTagged, pvTagged]
  | cons kv rest ih =>
    intro acc
    rw [List.foldl_cons, ih]
    by_cases h1 : strContains kv.1 "thermal"
    · simp [x08Step, h1, thermalTagged, pvTagged, List.filter_cons, Prod.ext_iff]
      ring
    · by_cases h2 : strContains kv.1 "pv"
      · simp [x08Step, h1, h2, thermalTagged, pvTagged, List.filter_cons, Prod.ext_iff]
        ring
      · simp [x08Step, h1, h2, thermalTagged, pvTagged, List.filter_cons]

/-- Claim C9 fails as stated: on a key containing both tags, the `elif`
counts it only as thermal, whereas the claim's reading (`x08SpecOpex`)
counts it in both sums. -/
theorem c9_counterexample :
    x08CalculateOpex [("A_thermal_pv", 5)] 1 1 = (5, 0) ∧
    x08SpecOpex [("A_thermal_pv", 5)] 1 1 = (5, 5) ∧
    x08CalculateOpex [("A_thermal_pv", 5)] 1 1 ≠ x08SpecOpex [("A_thermal_pv", 5)] 1 1 := by
  have h1 : strContains "A_thermal_pv" "thermal" = true := by decide
  have h2 : strContains "A_thermal_pv" "pv" = true := by decide
  refine ⟨?_, ?_, ?_⟩
  · norm_num [x08CalculateOpex, x08Step, h1]
  · norm_num [x08SpecOpex, List.filter_cons, h1, h2]
  · norm_num [x08CalculateOpex, x08SpecOpex, x08Step, List.filter_cons, h1, h2, Prod.ext_iff]

/-- C9 (amended): `x08CalculateOpex` returns the sum of capacities whose
key contains `"thermal"` times the thermal unit cost, and the sum of
capacities whose key contains `"pv"` *but not `"thermal"`* times the PV
unit cost; the spec's concrete scenario
`{A_thermal: 1000, B_pv: 2000}, opex 10/5 → (10000, 10000)` holds. -/
theorem c9_x08_opex_elif :
    (∀ (d : List (String × ℚ)) (oTH oPV : ℚ),
      x08CalculateOpex d oTH oPV = (thermalTagged d * oTH, pvTagged d * oPV)) ∧
    x08CalculateOpex [("A_thermal", 1000), ("B_pv", 2000)] 10 5 = (10000, 10000) := by
  have hmain : ∀ (d : List (String × ℚ)) (oTH oPV : ℚ),
      x08CalculateOpex d oTH oPV = (thermalTagged d * oTH, pvTagged d * oPV) := by
    intro d oTH oPV
    rw [x08CalculateOpex, x08_foldl d (0, 0)]
    norm_num
  refine ⟨hmain, ?_⟩
  have h1 : strContains "A_thermal" "thermal" = true := by decide
  have h2 : strContains "B_pv" "thermal" = false := by decide
  have h3 : strContains "B_pv" "pv" = true := by decide
  rw [hmain]
  norm_num [thermalTagged, pvTagged, List.filter_cons, h1, h2, h3]

/-- C4 fails on the code: for a sub-region whose peak power is
`2×10⁸ kW` (area `2×10⁹ m²`, land use `100 W/m²` — both inside the
validator's accepted ranges), the ceiling workaround passes `2×10⁵ kW` to
the query but computes `factor = 1`, because the `factor` test reads the
already-reassigned power.  The scale-down and scale-up factors do not
cancel: the returned series corresponds to 1000× less peak power than the
unscaled query. -/
theorem c4_x06_scale_not_cancelled :
    100000000 < peakPowerKW 2000000000 100 ∧
    x06PeakScale 2000000000 100 = (200000, 1) ∧
    (x06PeakScale 2000000000 100).1 * (x06PeakScale 2000000000 100).2 ≠
      peakPowerKW 2000000000 100 := by
  refine ⟨by norm_num [peakPowerKW], ?_, by norm_num [peakPowerKW, x06PeakScale]⟩
  norm_num [x06PeakScale]

/-- C1 fails on the code: with an empty thermal allocation (here: a
catalogue whose records all fall below the resource floor `2500`),
`s05CalculateThermalProduction` does not return normally — the branch that
assigns `nuts2TH` and `potDistTH` is skipped because `dfTH` is empty, and
the return statement raises `UnboundLocalError`. -/
theorem c1_s05_empty_thermal_raises :
    s05CalculateThermalProduction exCatalogue exCatalogue 0 2500 50 (9/20) (13/20) (1/2)
      (fun _ => [1000]) = .error "UnboundLocalError" := by
  norm_num [s05CalculateThermalProduction, x04GetRegions, x04GetRegionsGo, exCatalogue,
    dropRight_E1, E1_ne_E, x05GetThermalProduction, sumSeries]
